import Mathlib

/-!
Verification of the SynGen-DATA synthetic-data UI.

The repository is two Python modules:
  * src/synthetic_generator.py : generate_synthetic_data(data, num_rows),
    validating its inputs and delegating to an external CTGAN synthesizer
    (fit, then sample); any synthesizer failure is caught, logged and
    re-raised.
  * src/main.py : a Flet UI: file_picker_result ingests an uploaded CSV
    via pandas read_csv, on_generate validates the row-count text field,
    invokes generate_synthetic_data and wires preview/download state.

The embedding below models tables as lists of named columns of string
cells, CSV serialization/parsing after pandas to_csv/read_csv defaults
(comma delimiter, minimal quoting, blank lines skipped on read), the
external synthesizer as an oracle record of fit/sample functions, and
the UI session as an explicit state record transformed by the two
handlers.  Synthesizer invocations are recorded in a ghost event trace
so that claims about "the synthesizer is not invoked / invoked at most
once" are provable.
-/

deriving instance DecidableEq for Except

namespace SynGen

/-- In-memory table: ordered column names plus rows of string cells
(models a pandas DataFrame at the granularity the claims need; a cell
value is its textual content, the empty string standing for a missing
value, which pandas renders as an empty CSV field). -/
structure Table where
  cols : List String
  rows : List (List String)
deriving DecidableEq, Repr

/-- pandas DataFrame.empty: true iff any axis has length 0. -/
def Table.isEmpty (t : Table) : Bool := t.rows.isEmpty || t.cols.isEmpty

/-! ## CSV serialization (pandas to_csv defaults: sep=",", index=False,
minimal quoting, "\n" line terminator) -/

/-- The double-quote character. -/
def dq : Char := Char.ofNat 34

/-- QUOTE_MINIMAL: a field is quoted iff it contains the delimiter, the
quote character, or a line-break character. -/
def needsQuote (cs : List Char) : Bool :=
  cs.any (fun c => c = ',' || c = dq || c = '\n' || c = '\r')

/-- Double every quote character (CSV quote escaping). -/
def escQuote : List Char → List Char
  | [] => []
  | c :: t => if c = dq then dq :: dq :: escQuote t else c :: escQuote t

/-- Serialize one field, quoting it only when needed. -/
def encField (s : String) : List Char :=
  if needsQuote s.data then dq :: (escQuote s.data ++ [dq]) else s.data

/-- Serialize one record: fields joined by the comma delimiter. -/
def encRecord : List String → List Char
  | [] => []
  | [f] => encField f
  | f :: g :: t => encField f ++ ',' :: encRecord (g :: t)

/-- pandas DataFrame.to_csv(index=False): header record first, then one
record per row, each record terminated by a newline; no index column. -/
def to_csv (t : Table) : String :=
  ⟨encRecord t.cols ++ '\n' :: (t.rows.map (fun r => encRecord r ++ ['\n'])).flatten⟩

/-! ## CSV parsing (pandas read_csv defaults) -/

/-- CSV tokenizer as a character state machine.  The Bool flag says
whether the scanner is inside a quoted field; curF is the field read so
far, curR the fields of the current record.  Commas separate fields and
newlines separate records outside quotes; inside quotes a doubled quote
is a literal quote and a single quote closes the field; a quote opens a
quoted field only at field start.  Input ending without a final newline
still closes the last record; pending-free end of input emits no extra
record. -/
def pCSV : Bool → List Char → List Char → List String → List (List String)
  | _, [], curF, curR =>
      if curF.isEmpty && curR.isEmpty then [] else [curR ++ [String.mk curF]]
  | false, c :: t, curF, curR =>
      if c = ',' then pCSV false t [] (curR ++ [String.mk curF])
      else if c = '\n' then (curR ++ [String.mk curF]) :: pCSV false t [] []
      else if c = dq && curF.isEmpty then pCSV true t curF curR
      else pCSV false t (curF ++ [c]) curR
  | true, [c], curF, curR =>
      if c = dq then pCSV false [] curF curR
      else pCSV true [] (curF ++ [c]) curR
  | true, c :: c2 :: t, curF, curR =>
      if c = dq then
        if c2 = dq then pCSV true t (curF ++ [dq]) curR
        else pCSV false (c2 :: t) curF curR
      else pCSV true (c2 :: t) (curF ++ [c]) curR

/-- Split decoded text into CSV records. -/
def scanRecords (cs : List Char) : List (List String) :=
  pCSV false cs [] []

/-- pandas "Unnamed: k" renaming of empty header fields (k the column
position).  Duplicate-name mangling is not modelled; theorems that
depend on header fidelity carry a Nodup hypothesis instead. -/
def renameHeaderAux : Nat → List String → List String
  | _, [] => []
  | i, s :: t =>
      (if s = "" then "Unnamed: " ++ toString i else s) :: renameHeaderAux (i + 1) t

/-- pandas read_csv on decoded text: split into records, skip blank
lines (records consisting of a single empty field, per
skip_blank_lines=True), error when nothing remains (EmptyDataError),
otherwise the first record is the header (empty names renamed) and the
rest are the data rows.  Ragged-row handling beyond this is not
modelled; round-trip theorems stay on aligned input. -/
def read_csv (s : String) : Except String Table :=
  let recs := (scanRecords s.data).filter (fun r => !(r == [""]))
  match recs with
  | [] => Except.error "No columns to parse from file"
  | header :: dataRows => Except.ok ⟨renameHeaderAux 0 header, dataRows⟩

/-! ## Python int() on strings -/

/-- Models Python's built-in int() applied to a string: surrounding
whitespace is stripped, then an optional sign followed by at least one
decimal digit is accepted; anything else raises ValueError, modelled as
none.  (Underscore digit separators are not modelled; no claim uses
them.) -/
def pyInt (s : String) : Option Int :=
  let core : List Char → Option Nat := fun ds =>
    if ds ≠ [] && ds.all (fun c => c.isDigit) then
      some (ds.foldl (fun n c => n * 10 + (c.toNat - 48)) 0)
    else none
  match ((s.data.dropWhile Char.isWhitespace).reverse.dropWhile Char.isWhitespace).reverse with
  | '+' :: ds => (core ds).map (fun n => (n : Int))
  | '-' :: ds => (core ds).map (fun n => -(n : Int))
  | ds => (core ds).map (fun n => (n : Int))

/-! ## The generation orchestrator (src/synthetic_generator.py) -/

/-- The distinct failures generate_synthetic_data can raise.  In the
source all three are Python exceptions carrying a message; the
constructors are a ghost provenance tag, and msgOf below recovers the
exact message string the code attaches.  A synthesizer failure carries
the underlying exception's message unchanged (the except-branch
re-raises the caught exception). -/
inductive GenErr where
  | emptyData : GenErr
  | invalidRowCount : GenErr
  | synthesis : String → GenErr
deriving DecidableEq, Repr

/-- The message str(ex) of each failure, as written in the source. -/
def GenErr.msgOf : GenErr → String
  | .emptyData => "Input DataFrame is empty. Please provide valid data."
  | .invalidRowCount => "Number of synthetic rows must be a positive integer."
  | .synthesis m => m

/-- The external CTGAN synthesizer (sdv library), a black box behind
fit/sample: fit covers metadata detection, model construction and
training on the table; sample draws the requested number of rows.
Failures carry the raised exception's message. σ is the trained model
state. -/
structure Synthesizer (σ : Type) where
  fit : Table → Except String σ
  sample : σ → Int → Except String Table

/-- Ghost trace of what generate_synthetic_data did: its own invocation
(with the num_rows argument it received) and each synthesizer call. -/
inductive CallEvent where
  | generateCall : Int → CallEvent
  | fitCall : CallEvent
  | sampleCall : Int → CallEvent
deriving DecidableEq, Repr

def CallEvent.isFit : CallEvent → Bool
  | .fitCall => true
  | _ => false

def CallEvent.isSample : CallEvent → Bool
  | .sampleCall _ => true
  | _ => false

/-- generate_synthetic_data(data, num_rows) from
src/synthetic_generator.py.  The isinstance(data, DataFrame) check is
carried by the Table type; then: empty input fails, non-positive
num_rows fails (isinstance(num_rows, int) is carried by the Int type),
otherwise the synthesizer is fitted once and sampled once, and a
failure from either is caught, logged and re-raised with its message.
The second component is the ghost call trace. -/
def generate_synthetic_data {σ : Type} (o : Synthesizer σ) (data : Table)
    (num_rows : Int) : Except GenErr Table × List CallEvent :=
  if data.isEmpty then
    (Except.error GenErr.emptyData, [CallEvent.generateCall num_rows])
  else if num_rows ≤ 0 then
    (Except.error GenErr.invalidRowCount, [CallEvent.generateCall num_rows])
  else
    match o.fit data with
    | Except.error m =>
        (Except.error (GenErr.synthesis m),
         [CallEvent.generateCall num_rows, CallEvent.fitCall])
    | Except.ok st =>
        match o.sample st num_rows with
        | Except.error m =>
            (Except.error (GenErr.synthesis m),
             [CallEvent.generateCall num_rows, CallEvent.fitCall,
              CallEvent.sampleCall num_rows])
        | Except.ok t =>
            (Except.ok t,
             [CallEvent.generateCall num_rows, CallEvent.fitCall,
              CallEvent.sampleCall num_rows])

/-! ## The UI session (src/main.py) -/

/-- Status-text colors used by main.py. -/
inductive Color where
  | green : Color
  | red : Color
  | blue : Color
deriving DecidableEq, Repr

/-- Contents of the output_container column: a progress bar while
generating, or the preview label plus the first rows of the synthetic
table (the to_string text formatting is abstracted to the previewed
rows themselves). -/
inductive OutCtl where
  | progressBar : OutCtl
  | previewLabel : OutCtl
  | preview : List (List String) → OutCtl
deriving DecidableEq, Repr

/-- The session state of main(): the two nonlocal data variables, the
row-count text field, the status line, the generate button's disabled
flag and the download button's file name, bytes (kept as the decoded
string; the code UTF-8-encodes it) and visibility, plus the
output_container contents. -/
structure AppState where
  original_data : Option Table
  synthetic_data_df : Option Table
  rows_value : String
  status : String
  status_color : Color
  generate_disabled : Bool
  download_file_name : String
  download_bytes : String
  download_visible : Bool
  output_controls : List OutCtl
deriving DecidableEq, Repr

/-- The state set up by main() before any interaction. -/
def initState : AppState where
  original_data := none
  synthetic_data_df := none
  rows_value := "100"
  status := ""
  status_color := Color.green
  generate_disabled := true
  download_file_name := "synthetic_data.csv"
  download_bytes := ""
  download_visible := false
  output_controls := []

/-- An uploaded file, reduced to what file_picker_result reads from it:
the outcome of read_bytes() plus the UTF-8 decode, which is the decoded
text or the decode exception's message (both steps are external I/O,
modelled by their outcome). -/
def UploadFile : Type := Except String String

/-- pandas shape rendering "(r, c)" used in the status messages. -/
def shapeStr (t : Table) : String :=
  "(" ++ toString t.rows.length ++ ", " ++ toString t.cols.length ++ ")"

/-- file_picker_result from src/main.py: with no file, nothing happens;
otherwise the file is decoded and parsed with read_csv.  On success
original_data is replaced, a green status is shown and the generate
button enabled; on any exception a red status is shown and the generate
button disabled.  Nothing else is touched. -/
def file_picker_result (s : AppState) (files : List UploadFile) : AppState :=
  match files with
  | [] => s
  | f :: _ =>
      match f.bind read_csv with
      | Except.ok t =>
          { s with
            original_data := some t
            status := "Dataset uploaded successfully with shape " ++ shapeStr t ++ "."
            status_color := Color.green
            generate_disabled := false }
      | Except.error m =>
          { s with
            status := "Error reading file: " ++ m
            status_color := Color.red
            generate_disabled := true }

/-- on_generate from src/main.py.  Guards: a missing dataset and an
unparsable or non-positive row count each produce a red status and
return before generate_synthetic_data is reached (empty trace).
Otherwise status/progress are set, generate_synthetic_data is called
once; on success the synthetic table, preview, download bytes and
visibility are installed; on exception a red status with the
exception's message is shown and the output cleared — the synthetic
table and download state of a previous success are left as they were.
Returns the new state and the ghost synthesizer-call trace. -/
def on_generate {σ : Type} (o : Synthesizer σ) (s : AppState) :
    AppState × List CallEvent :=
  match s.original_data with
  | none =>
      ({ s with status := "Please upload a dataset first."
                status_color := Color.red }, [])
  | some tbl =>
      match pyInt s.rows_value with
      | none =>
          ({ s with status := "Invalid number of rows. Please enter a positive integer."
                    status_color := Color.red }, [])
      | some num_rows =>
          if num_rows ≤ 0 then
            ({ s with status := "Invalid number of rows. Please enter a positive integer."
                      status_color := Color.red }, [])
          else
            let s1 := { s with status := "Generating synthetic data. Please wait..."
                               status_color := Color.blue
                               output_controls := [OutCtl.progressBar] }
            match generate_synthetic_data o tbl num_rows with
            | (Except.ok t, evs) =>
                ({ s1 with
                   synthetic_data_df := some t
                   status := "Synthetic data generated with shape " ++ shapeStr t ++ "."
                   status_color := Color.green
                   output_controls := [OutCtl.previewLabel, OutCtl.preview (t.rows.take 5)]
                   download_bytes := to_csv t
                   download_visible := true }, evs)
            | (Except.error e, evs) =>
                ({ s1 with
                   status := "Error generating synthetic data: " ++ e.msgOf
                   status_color := Color.red
                   output_controls := [] }, evs)

/-! ## Concrete fixtures used by witnesses and counterexamples -/

/-- A small non-empty input table (as ingested from "a,b\n1,2\n"). -/
def tblW : Table := ⟨["a", "b"], [["1", "2"]]⟩

/-- A synthesizer oracle that always trains and samples successfully,
returning the requested number of rows over the fixture's columns. -/
def oracleW : Synthesizer Unit where
  fit := fun _ => Except.ok ()
  sample := fun _ n => Except.ok ⟨["a", "b"], List.replicate n.toNat ["5", "6"]⟩

/-- A synthesizer oracle whose training fails (e.g. resource
exhaustion inside the external library). -/
def oracleFail : Synthesizer Unit where
  fit := fun _ => Except.error "CTGAN training failed"
  sample := fun _ _ => Except.error "CTGAN training failed"

/-! A reachable UI trace:
initState → upload ok → set row count to 2 → generate ok -/

/-- State after a successful upload of "a,b\n1,2\n". -/
def sLoaded : AppState := file_picker_result initState [Except.ok "a,b\n1,2\n"]

/-- sLoaded after the user types "2" into the row-count field. -/
def sLoaded2 : AppState := { sLoaded with rows_value := "2" }

/-- State after a successful generation of 2 rows from sLoaded2. -/
def sReady : AppState := (on_generate oracleW sLoaded2).1

/-- The synthetic table produced in sReady. -/
def tSyn : Table := ⟨["a", "b"], [["5", "6"], ["5", "6"]]⟩

/-! ## Theorems for the claims -/

/-- C1: For every non-empty input table and every requested row count
n ≥ 1, a successful generate_synthetic_data call returns a synthetic
table with exactly n rows and the same column names as the input table,
in the same order.  The external synthesizer is assumed to honor its
dependency contract (sample(state, n) yields a table with the fitted
table's columns and n rows). -/
theorem generate_success_shape {σ : Type} (o : Synthesizer σ) (data : Table)
    (n : Int) (t : Table)
    (hcontract : ∀ st out, o.fit data = Except.ok st →
      o.sample st n = Except.ok out →
      out.cols = data.cols ∧ out.rows.length = n.toNat)
    (hne : data.isEmpty = false) (hn : 1 ≤ n)
    (hok : (generate_synthetic_data o data n).1 = Except.ok t) :
    t.rows.length = n.toNat ∧ t.cols = data.cols := by
  have hn0 : ¬ (n ≤ 0) := by omega
  simp only [generate_synthetic_data, hne, Bool.false_eq_true, if_false, hn0] at hok
  split at hok
  next m hfit => simp at hok
  next st hfit =>
    split at hok
    next m hs => simp at hok
    next out hs =>
      simp at hok
      have h := hcontract st out hfit hs
      exact ⟨hok ▸ h.2, hok ▸ h.1⟩

/-- Witness for C1 at a concrete oracle, table and row count. -/
theorem generate_success_shape_witness :
    (⟨["a", "b"], [["5", "6"], ["5", "6"]]⟩ : Table).rows.length = (2 : Int).toNat ∧
    (⟨["a", "b"], [["5", "6"], ["5", "6"]]⟩ : Table).cols = tblW.cols :=
  generate_success_shape oracleW tblW 2 ⟨["a", "b"], [["5", "6"], ["5", "6"]]⟩
    (fun st out _ hs => by
      injection hs with h
      exact h ▸ ⟨rfl, rfl⟩)
    rfl (by omega) rfl

/-- C4: Any failure raised by the synthesizer during fit or sample is
caught by generate_synthetic_data and re-raised as a synthesis failure
carrying the underlying message, and the synthesizer is fitted at most
once and sampled at most once per call (no retry). -/
theorem generate_synth_failure_propagates {σ : Type} (o : Synthesizer σ)
    (data : Table) (n : Int) (m : String)
    (hne : data.isEmpty = false) (hn : 0 < n) :
    ((o.fit data = Except.error m →
        (generate_synthetic_data o data n).1 = Except.error (GenErr.synthesis m))
     ∧ (∀ st, o.fit data = Except.ok st → o.sample st n = Except.error m →
        (generate_synthetic_data o data n).1 = Except.error (GenErr.synthesis m))
     ∧ (GenErr.synthesis m).msgOf = m)
    ∧ ((generate_synthetic_data o data n).2.countP CallEvent.isFit ≤ 1
       ∧ (generate_synthetic_data o data n).2.countP CallEvent.isSample ≤ 1) := by
  have hn0 : ¬ (n ≤ 0) := by omega
  refine ⟨⟨?_, ?_, rfl⟩, ?_⟩
  · intro hfit
    simp [generate_synthetic_data, hne, hn0, hfit]
  · intro st hfit hs
    simp [generate_synthetic_data, hne, hn0, hfit, hs]
  · simp only [generate_synthetic_data, hne, Bool.false_eq_true, if_false, hn0]
    split
    · simp [List.countP, List.countP.go, CallEvent.isFit, CallEvent.isSample]
    · split <;>
        simp [List.countP, List.countP.go, CallEvent.isFit, CallEvent.isSample]

/-- Witness for C4: the failing oracle's message is re-raised for a
concrete call, and the call's trace has at most one fit and one
sample. -/
theorem generate_synth_failure_propagates_witness :
    (generate_synthetic_data oracleFail tblW 2).1 =
        Except.error (GenErr.synthesis "CTGAN training failed")
    ∧ (GenErr.synthesis "CTGAN training failed").msgOf = "CTGAN training failed"
    ∧ (generate_synthetic_data oracleFail tblW 2).2.countP CallEvent.isFit ≤ 1
    ∧ (generate_synthetic_data oracleFail tblW 2).2.countP CallEvent.isSample ≤ 1 :=
  have h := generate_synth_failure_propagates oracleFail tblW 2
    "CTGAN training failed" rfl (by omega)
  ⟨h.1.1 rfl, h.1.2.2, h.2.1, h.2.2⟩

/-- C5: generate_synthetic_data checks its preconditions in order, each
a distinct failure: an empty table fails with the empty-dataset error
for every requested row count (also an invalid one), and a non-empty
table with a non-positive row count fails with the invalid-row-count
error; the two failures and their messages are distinct. -/
theorem generate_precondition_order {σ : Type} (o : Synthesizer σ)
    (data : Table) (n : Int) :
    (data.isEmpty = true →
       (generate_synthetic_data o data n).1 = Except.error GenErr.emptyData)
    ∧ (data.isEmpty = false → n ≤ 0 →
       (generate_synthetic_data o data n).1 = Except.error GenErr.invalidRowCount)
    ∧ GenErr.emptyData ≠ GenErr.invalidRowCount
    ∧ GenErr.emptyData.msgOf ≠ GenErr.invalidRowCount.msgOf := by
  refine ⟨?_, ?_, by decide, by decide⟩
  · intro he; simp [generate_synthetic_data, he]
  · intro he hn; simp [generate_synthetic_data, he, hn]

/-- Witness for C5: an empty table with an also-invalid row count is
reported as the empty-dataset failure, and a non-empty table with row
count 0 as the invalid-row-count failure. -/
theorem generate_precondition_order_witness :
    (generate_synthetic_data oracleW ⟨["a"], []⟩ (-3)).1 =
        Except.error GenErr.emptyData
    ∧ (generate_synthetic_data oracleW ⟨["a"], [["1"]]⟩ 0).1 =
        Except.error GenErr.invalidRowCount
    ∧ GenErr.emptyData.msgOf ≠ GenErr.invalidRowCount.msgOf :=
  ⟨(generate_precondition_order oracleW ⟨["a"], []⟩ (-3)).1 rfl,
   (generate_precondition_order oracleW ⟨["a"], [["1"]]⟩ 0).2.1 rfl (by omega),
   (generate_precondition_order oracleW ⟨["a"], []⟩ 1).2.2.2⟩

/-- C7: With a dataset loaded, each of the row-count inputs "0", "-5",
"abc" and "" makes on_generate reject the request before
generate_synthetic_data (and hence the synthesizer) is invoked — the
call trace is empty — and the only state change is the red error
status. -/
theorem on_generate_rejects_invalid_rowcount {σ : Type} (o : Synthesizer σ)
    (s : AppState) (tbl : Table)
    (hdata : s.original_data = some tbl)
    (hrv : s.rows_value = "0" ∨ s.rows_value = "-5" ∨
           s.rows_value = "abc" ∨ s.rows_value = "") :
    on_generate o s =
      ({ s with status := "Invalid number of rows. Please enter a positive integer."
                status_color := Color.red }, []) := by
  rcases hrv with h | h | h | h <;>
    simp [on_generate, hdata, h,
      (by decide : pyInt "0" = some 0),
      (by decide : pyInt "-5" = some (-5)),
      (by decide : pyInt "abc" = none),
      (by decide : pyInt "" = none)]

/-- Witness for C7 at the reachable loaded state with input "0". -/
theorem on_generate_rejects_invalid_rowcount_witness :
    on_generate oracleW { sLoaded with rows_value := "0" } =
      ({ sLoaded with
          rows_value := "0"
          status := "Invalid number of rows. Please enter a positive integer."
          status_color := Color.red }, []) :=
  on_generate_rejects_invalid_rowcount oracleW
    { sLoaded with rows_value := "0" } ⟨["a", "b"], [["1", "2"]]⟩ rfl (Or.inl rfl)

/-- C2 (amended): a failed generation leaves the previously loaded
table intact; but the synthetic table and the download button's bytes
and visibility from an earlier success are left exactly as they were —
stale results are not discarded. -/
theorem generate_failure_state_effects {σ : Type} (o : Synthesizer σ)
    (s : AppState) (tbl : Table) (n : Int) (e : GenErr) (evs : List CallEvent)
    (hdata : s.original_data = some tbl)
    (hrv : pyInt s.rows_value = some n) (hn : 0 < n)
    (hfail : generate_synthetic_data o tbl n = (Except.error e, evs)) :
    (on_generate o s).1.original_data = s.original_data
    ∧ (on_generate o s).1.synthetic_data_df = s.synthetic_data_df
    ∧ (on_generate o s).1.download_visible = s.download_visible
    ∧ (on_generate o s).1.download_bytes = s.download_bytes
    ∧ (on_generate o s).1.download_file_name = s.download_file_name
    ∧ (on_generate o s).1.status_color = Color.red := by
  have hn0 : ¬ (n ≤ 0) := by omega
  simp [on_generate, hdata, hrv, hn0, hfail]

/-- Witness for the amended C2 on the concrete trace: generation fails
at sReady with the failing oracle. -/
theorem generate_failure_state_effects_witness :
    (on_generate oracleFail sReady).1.original_data = sReady.original_data
    ∧ (on_generate oracleFail sReady).1.synthetic_data_df = sReady.synthetic_data_df
    ∧ (on_generate oracleFail sReady).1.download_visible = sReady.download_visible
    ∧ (on_generate oracleFail sReady).1.download_bytes = sReady.download_bytes
    ∧ (on_generate oracleFail sReady).1.download_file_name = sReady.download_file_name
    ∧ (on_generate oracleFail sReady).1.status_color = Color.red :=
  generate_failure_state_effects oracleFail sReady ⟨["a", "b"], [["1", "2"]]⟩ 2
    (GenErr.synthesis "CTGAN training failed")
    [CallEvent.generateCall 2, CallEvent.fitCall]
    rfl rfl (by omega) rfl

/-- Counterexample to C2 as stated: in the reachable state sReady a
prior generation succeeded; a subsequent failing generate attempt
leaves the stale synthetic table retained and the download still
visible with the old bytes. -/
theorem failed_generation_keeps_stale_download :
    sReady.synthetic_data_df = some tSyn
    ∧ sReady.download_visible = true
    ∧ (on_generate oracleFail sReady).1.synthetic_data_df = some tSyn
    ∧ (on_generate oracleFail sReady).1.download_visible = true
    ∧ (on_generate oracleFail sReady).1.download_bytes = to_csv tSyn
    ∧ (on_generate oracleFail sReady).1.status_color = Color.red :=
  ⟨rfl, rfl, rfl, rfl, rfl, rfl⟩

/-- C3 (amended): a successful upload replaces the current table,
shows a green status and enables generate; but it does not discard a
prior synthetic table and does not hide the download action — both are
left exactly as they were. -/
theorem upload_success_state_effects (s : AppState) (f : UploadFile)
    (rest : List UploadFile) (t : Table)
    (hparse : f.bind read_csv = Except.ok t) :
    (file_picker_result s (f :: rest)).original_data = some t
    ∧ (file_picker_result s (f :: rest)).synthetic_data_df = s.synthetic_data_df
    ∧ (file_picker_result s (f :: rest)).download_visible = s.download_visible
    ∧ (file_picker_result s (f :: rest)).download_bytes = s.download_bytes
    ∧ (file_picker_result s (f :: rest)).generate_disabled = false := by
  simp [file_picker_result, hparse]

/-- Witness for the amended C3 on the concrete trace: a second valid
upload at sReady. -/
theorem upload_success_state_effects_witness :
    (file_picker_result sReady [Except.ok "x,y\n7,8\n"]).original_data =
        some ⟨["x", "y"], [["7", "8"]]⟩
    ∧ (file_picker_result sReady [Except.ok "x,y\n7,8\n"]).synthetic_data_df =
        sReady.synthetic_data_df
    ∧ (file_picker_result sReady [Except.ok "x,y\n7,8\n"]).download_visible =
        sReady.download_visible
    ∧ (file_picker_result sReady [Except.ok "x,y\n7,8\n"]).download_bytes =
        sReady.download_bytes
    ∧ (file_picker_result sReady [Except.ok "x,y\n7,8\n"]).generate_disabled = false :=
  upload_success_state_effects sReady (Except.ok "x,y\n7,8\n") []
    ⟨["x", "y"], [["7", "8"]]⟩ rfl

/-- Counterexample to C3 as stated: uploading a second valid dataset at
sReady leaves the prior synthetic table in place and the download
action still visible. -/
theorem upload_after_success_keeps_stale_download :
    sReady.synthetic_data_df = some tSyn
    ∧ sReady.download_visible = true
    ∧ (file_picker_result sReady [Except.ok "x,y\n7,8\n"]).original_data =
        some ⟨["x", "y"], [["7", "8"]]⟩
    ∧ (file_picker_result sReady [Except.ok "x,y\n7,8\n"]).synthetic_data_df = some tSyn
    ∧ (file_picker_result sReady [Except.ok "x,y\n7,8\n"]).download_visible = true :=
  ⟨rfl, rfl, rfl, rfl, rfl⟩

/-- C6 (amended): a failed upload changes nothing in the session state
except the red error status and the generate button, which is disabled
unconditionally — even when a previously loaded table remains loaded. -/
theorem upload_failure_state_effects (s : AppState) (f : UploadFile)
    (rest : List UploadFile) (m : String)
    (hfail : f.bind read_csv = Except.error m) :
    file_picker_result s (f :: rest) =
      { s with status := "Error reading file: " ++ m
               status_color := Color.red
               generate_disabled := true } := by
  simp [file_picker_result, hfail]

/-- Witness for the amended C6: a non-decodable upload at the loaded
state. -/
theorem upload_failure_state_effects_witness :
    file_picker_result sLoaded [Except.error "invalid utf-8"] =
      { sLoaded with
          status := "Error reading file: " ++ "invalid utf-8"
          status_color := Color.red
          generate_disabled := true } :=
  upload_failure_state_effects sLoaded (Except.error "invalid utf-8") []
    "invalid utf-8" rfl

/-- Counterexample to C6 as stated: at sLoaded a table was loaded and
generate was enabled; a failed upload keeps the table but disables the
generate action anyway. -/
theorem failed_upload_disables_generate_cx :
    sLoaded.original_data = some ⟨["a", "b"], [["1", "2"]]⟩
    ∧ sLoaded.generate_disabled = false
    ∧ (file_picker_result sLoaded [Except.error "invalid utf-8"]).original_data =
        some ⟨["a", "b"], [["1", "2"]]⟩
    ∧ (file_picker_result sLoaded [Except.error "invalid utf-8"]).generate_disabled = true :=
  ⟨rfl, rfl, rfl, rfl⟩

/-- Every generateCall event in the trace of generate_synthetic_data
records the num_rows argument the call received. -/
theorem generate_events_generateCall {σ : Type} (o : Synthesizer σ)
    (data : Table) (n m : Int)
    (h : CallEvent.generateCall m ∈ (generate_synthetic_data o data n).2) :
    m = n := by
  unfold generate_synthetic_data at h
  split at h
  · simp_all
  · split at h
    · simp_all
    · split at h
      · simp_all
      · split at h <;> simp_all

/-- C10: invoked from the UI's on_generate handler,
generate_synthetic_data only ever receives a row count that on_generate
already parsed with int() and checked to be positive (every recorded
invocation argument is positive), and with a positive argument its own
row-count failure branch cannot fire. -/
theorem rowcount_branch_unreachable_from_ui {σ : Type} (o : Synthesizer σ)
    (s : AppState) :
    (∀ n, CallEvent.generateCall n ∈ (on_generate o s).2 → 0 < n)
    ∧ (∀ (tbl : Table) (n : Int), 0 < n →
        (generate_synthetic_data o tbl n).1 ≠ Except.error GenErr.invalidRowCount) := by
  constructor
  · intro n hmem
    unfold on_generate at hmem
    cases hdata : s.original_data with
    | none => rw [hdata] at hmem; simp at hmem
    | some tbl =>
        rw [hdata] at hmem
        dsimp only at hmem
        cases hrv : pyInt s.rows_value with
        | none => rw [hrv] at hmem; simp at hmem
        | some num =>
            rw [hrv] at hmem
            dsimp only at hmem
            by_cases hpos : num ≤ 0
            · simp [hpos] at hmem
            · rw [if_neg hpos] at hmem
              rcases hgpair : generate_synthetic_data o tbl num with ⟨res, evs⟩
              rw [hgpair] at hmem
              have hmem2 : CallEvent.generateCall n ∈
                  (generate_synthetic_data o tbl num).2 := by
                rw [hgpair]
                cases res <;> simpa using hmem
              have hn := generate_events_generateCall o tbl num n hmem2
              omega
  · intro tbl n hn
    have hn0 : ¬ (n ≤ 0) := by omega
    unfold generate_synthetic_data
    by_cases he : tbl.isEmpty
    · simp [he]
    · simp only [he, Bool.false_eq_true, if_false, hn0]
      split
      · simp
      · split <;> simp

/-- Witness for C10: the positivity check and the non-firing branch at
a concrete call. -/
theorem rowcount_branch_unreachable_from_ui_witness :
    (0 : Int) < 2 ∧
    (generate_synthetic_data oracleW tblW 2).1 ≠ Except.error GenErr.invalidRowCount :=
  ⟨by omega,
   (rowcount_branch_unreachable_from_ui oracleW sLoaded2).2 tblW 2 (by omega)⟩

/-! ## CSV round-trip: the tokenizer inverts the serializer -/

theorem mk_data (s : String) : String.mk s.data = s := by cases s; rfl

theorem dq_ne_comma : dq ≠ ',' := by decide

theorem dq_ne_nl : dq ≠ '\n' := by decide

theorem head_cons_ne_dq {c : Char} (h : c ≠ dq) (l : List Char) :
    (c :: l).head? ≠ some dq := by simp [h]

/-- Reading quoted-field content: un-escaping inverts escaping, and the
closing quote returns the machine to unquoted mode. -/
theorem pCSV_escQuote (s : List Char) : ∀ (r curF : List Char) (curR : List String),
    r.head? ≠ some dq →
    pCSV true (escQuote s ++ dq :: r) curF curR = pCSV false r (curF ++ s) curR := by
  induction s with
  | nil =>
      intro r curF curR hr
      simp only [escQuote, List.nil_append]
      cases r with
      | nil => simp [pCSV]
      | cons c2 t =>
          have hc2 : ¬ (c2 = dq) := by simpa using hr
          simp [pCSV, hc2]
  | cons c s' ih =>
      intro r curF curR hr
      by_cases hc : c = dq
      · subst hc
        have h1 : escQuote (dq :: s') ++ dq :: r =
            dq :: dq :: (escQuote s' ++ dq :: r) := by simp [escQuote]
        rw [h1]
        have h2 : pCSV true (dq :: dq :: (escQuote s' ++ dq :: r)) curF curR =
            pCSV true (escQuote s' ++ dq :: r) (curF ++ [dq]) curR := rfl
        rw [h2, ih _ _ _ hr]
        simp
      · cases hE : escQuote s' ++ dq :: r with
        | nil => exact absurd hE (by simp)
        | cons c2 t =>
            have h1 : escQuote (c :: s') ++ dq :: r = c :: c2 :: t := by
              simp [escQuote, if_neg hc, hE]
            rw [h1]
            simp only [pCSV, if_neg hc]
            rw [← hE, ih _ _ _ hr]
            simp

/-- Reading unquoted-field content: plain characters are appended to
the current field. -/
theorem pCSV_unquoted (s : List Char) : ∀ (r curF : List Char) (curR : List String),
    (∀ c ∈ s, c ≠ ',' ∧ c ≠ '\n' ∧ c ≠ dq) →
    pCSV false (s ++ r) curF curR = pCSV false r (curF ++ s) curR := by
  induction s with
  | nil => intro r curF curR _; simp
  | cons c s' ih =>
      intro r curF curR hs
      obtain ⟨h1, h2, h3⟩ := hs c (by simp)
      have hrest : ∀ c ∈ s', c ≠ ',' ∧ c ≠ '\n' ∧ c ≠ dq :=
        fun c hc => hs c (by simp [hc])
      simp only [List.cons_append, pCSV, if_neg h1, if_neg h2]
      rw [if_neg (by simp [h3])]
      rw [show s'.append r = s' ++ r from rfl, ih _ _ _ hrest]
      simp

/-- A serialized field is read back verbatim whenever what follows it
does not start with a quote (in CSV output it is a comma, a newline or
the end of input). -/
theorem pCSV_encField (f : String) (r : List Char) (curR : List String)
    (hr : r.head? ≠ some dq) :
    pCSV false (encField f ++ r) [] curR = pCSV false r f.data curR := by
  by_cases hq : needsQuote f.data
  · simp only [encField, if_pos hq]
    have h1 : (dq :: (escQuote f.data ++ [dq])) ++ r =
        dq :: (escQuote f.data ++ dq :: r) := by simp
    rw [h1]
    have h2 : pCSV false (dq :: (escQuote f.data ++ dq :: r)) [] curR =
        pCSV true (escQuote f.data ++ dq :: r) [] curR := rfl
    rw [h2, pCSV_escQuote f.data r [] curR hr]
    simp
  · have hq' : needsQuote f.data = false := by simpa using hq
    simp only [encField, if_neg hq]
    have hchars : ∀ c ∈ f.data, c ≠ ',' ∧ c ≠ '\n' ∧ c ≠ dq := by
      intro c hc
      refine ⟨fun he => ?_, fun he => ?_, fun he => ?_⟩ <;>
      · subst he
        have ht : needsQuote f.data = true := by
          simp only [needsQuote, List.any_eq_true]
          exact ⟨_, hc, by simp⟩
        rw [ht] at hq'
        simp at hq'
    rw [pCSV_unquoted f.data r [] curR hchars]
    simp

/-- A serialized record followed by a newline is read back as one
record, fields verbatim. -/
theorem pCSV_record : ∀ (fs : List String), fs ≠ [] →
    ∀ (rest : List Char) (curR : List String),
    pCSV false (encRecord fs ++ '\n' :: rest) [] curR =
      (curR ++ fs) :: pCSV false rest [] []
  | [], h => absurd rfl h
  | [f], _ => by
      intro rest curR
      simp only [encRecord]
      rw [pCSV_encField f ('\n' :: rest) curR (head_cons_ne_dq (Ne.symm dq_ne_nl) rest)]
      have h2 : pCSV false ('\n' :: rest) f.data curR =
          (curR ++ [String.mk f.data]) :: pCSV false rest [] [] := rfl
      rw [h2, mk_data]
  | f :: g :: t, _ => by
      intro rest curR
      simp only [encRecord]
      have h1 : (encField f ++ ',' :: encRecord (g :: t)) ++ '\n' :: rest =
          encField f ++ (',' :: (encRecord (g :: t) ++ '\n' :: rest)) := by simp
      rw [h1]
      rw [pCSV_encField f (',' :: (encRecord (g :: t) ++ '\n' :: rest)) curR
        (head_cons_ne_dq (Ne.symm dq_ne_comma) _)]
      have h2 : pCSV false (',' :: (encRecord (g :: t) ++ '\n' :: rest)) f.data curR =
          pCSV false (encRecord (g :: t) ++ '\n' :: rest) []
            (curR ++ [String.mk f.data]) := rfl
      rw [h2, mk_data]
      rw [pCSV_record (g :: t) (by simp) rest (curR ++ [f])]
      simp

/-- The serialized rows are read back as themselves. -/
theorem pCSV_rows (rows : List (List String)) (hrows : ∀ r ∈ rows, r ≠ []) :
    pCSV false ((rows.map (fun r => encRecord r ++ ['\n'])).flatten) [] [] = rows := by
  induction rows with
  | nil => simp [pCSV]
  | cons r rs ih =>
      have h1 : ((r :: rs).map (fun r => encRecord r ++ ['\n'])).flatten =
          encRecord r ++ '\n' :: ((rs.map (fun r => encRecord r ++ ['\n'])).flatten) := by
        simp
      rw [h1, pCSV_record r (hrows r (by simp)) _ []]
      rw [ih (fun x hx => hrows x (by simp [hx]))]
      simp

/-- Core round-trip at the tokenizer level: the records of a serialized
table are exactly the header followed by the rows. -/
theorem scanRecords_to_csv (t : Table) (hc : t.cols ≠ [])
    (hrows : ∀ r ∈ t.rows, r ≠ []) :
    scanRecords (to_csv t).data = t.cols :: t.rows := by
  show pCSV false (encRecord t.cols ++ '\n' ::
      ((t.rows.map (fun r => encRecord r ++ ['\n'])).flatten)) [] [] =
    t.cols :: t.rows
  rw [pCSV_record t.cols hc _ [], pCSV_rows t.rows hrows]
  simp

/-- Header renaming is the identity on non-empty names. -/
theorem renameHeaderAux_id : ∀ (i : Nat) (hs : List String),
    (∀ s ∈ hs, s ≠ "") → renameHeaderAux i hs = hs
  | _, [], _ => rfl
  | i, s :: t, h => by
      simp only [renameHeaderAux, if_neg (h s (by simp))]
      rw [renameHeaderAux_id (i + 1) t (fun x hx => h x (by simp [hx]))]

/-- C8 (amended): serializing a table to delimited text and re-parsing
it via ingestion reproduces the column names and the rows exactly,
provided the table is well formed for the pipeline: at least one
column, non-empty unique column names (ingested headers are renamed to
be non-empty; pandas additionally deduplicates names, which is why
uniqueness is required), rows aligned with the header, and no row that
serializes to a blank line (a lone all-empty cell in a one-column
table), since blank lines are skipped on re-parse. -/
theorem csv_roundtrip (t : Table)
    (hc : t.cols ≠ [])
    (hcne : ∀ c ∈ t.cols, c ≠ "")
    (hnd : t.cols.Nodup)
    (hlen : ∀ r ∈ t.rows, r.length = t.cols.length)
    (hblank : ∀ r ∈ t.rows, r ≠ [""]) :
    read_csv (to_csv t) = Except.ok ⟨t.cols, t.rows⟩ := by
  have hrows : ∀ r ∈ t.rows, r ≠ [] := by
    intro r hr hnil
    have hl := hlen r hr
    rw [hnil] at hl
    simp only [List.length_nil] at hl
    exact hc (List.length_eq_zero.mp hl.symm)
  have hcolskeep : (!(t.cols == [""])) = true := by
    simp only [Bool.not_eq_true', beq_eq_false_iff_ne, ne_eq]
    intro he
    exact hcne "" (by rw [he]; simp) rfl
  have hrowskeep : t.rows.filter (fun r => !(r == [""])) = t.rows :=
    List.filter_eq_self.mpr (fun r hr => by
      simp only [Bool.not_eq_true', beq_eq_false_iff_ne, ne_eq]
      exact hblank r hr)
  simp only [read_csv]
  rw [scanRecords_to_csv t hc hrows]
  have hfc : List.filter (fun r => !(r == [""])) (t.cols :: t.rows) =
      t.cols :: List.filter (fun r => !(r == [""])) t.rows := by
    rw [List.filter_cons, if_pos hcolskeep]
  rw [hfc, hrowskeep]
  simp only [renameHeaderAux_id 0 t.cols hcne]

/-- Witness for the amended C8 at the concrete synthetic table tSyn. -/
theorem csv_roundtrip_witness :
    read_csv (to_csv tSyn) = Except.ok ⟨tSyn.cols, tSyn.rows⟩ :=
  csv_roundtrip tSyn (by decide) (by decide) (by decide) (by decide) (by decide)

/-- Counterexample to C8 as stated: a one-column synthetic table whose
single row holds a missing value serializes to a blank data line, which
re-parsing skips — the round trip returns 0 rows instead of 1. -/
theorem csv_roundtrip_blankline_cx :
    to_csv ⟨["a"], [[""]]⟩ = "a\n\n"
    ∧ read_csv (to_csv ⟨["a"], [[""]]⟩) = Except.ok ⟨["a"], []⟩
    ∧ (⟨["a"], [[""]]⟩ : Table).rows.length = 1
    ∧ (⟨["a"], []⟩ : Table).rows.length = 0 :=
  ⟨rfl, rfl, rfl, rfl⟩

/-- C9: on a successful generation the download buffer is exactly the
synthetic table serialized by to_csv (comma-delimited, UTF-8-encoded by
the caller), the download becomes visible, the offered file name is the
one set at startup — "synthetic_data.csv", never reassigned — and the
buffer's records are exactly the header (the column names, first line)
followed by one record per synthetic row, with no extra index column. -/
theorem download_buffer_spec {σ : Type} (o : Synthesizer σ) (s : AppState)
    (tbl t : Table) (n : Int) (evs : List CallEvent)
    (hdata : s.original_data = some tbl)
    (hrv : pyInt s.rows_value = some n) (hn : 0 < n)
    (hok : generate_synthetic_data o tbl n = (Except.ok t, evs))
    (hc : t.cols ≠ []) (hre : ∀ r ∈ t.rows, r ≠ []) :
    (on_generate o s).1.download_bytes = to_csv t
    ∧ (on_generate o s).1.download_visible = true
    ∧ (on_generate o s).1.download_file_name = s.download_file_name
    ∧ initState.download_file_name = "synthetic_data.csv"
    ∧ scanRecords (to_csv t).data = t.cols :: t.rows := by
  have hn0 : ¬ (n ≤ 0) := by omega
  refine ⟨?_, ?_, ?_, rfl, scanRecords_to_csv t hc hre⟩ <;>
    simp [on_generate, hdata, hrv, hn0, hok]

/-- Witness for C9 on the concrete trace. -/
theorem download_buffer_spec_witness :
    (on_generate oracleW sLoaded2).1.download_bytes = to_csv tSyn
    ∧ (on_generate oracleW sLoaded2).1.download_visible = true
    ∧ (on_generate oracleW sLoaded2).1.download_file_name = sLoaded2.download_file_name
    ∧ initState.download_file_name = "synthetic_data.csv"
    ∧ scanRecords (to_csv tSyn).data = tSyn.cols :: tSyn.rows :=
  download_buffer_spec oracleW sLoaded2 ⟨["a", "b"], [["1", "2"]]⟩ tSyn 2
    [CallEvent.generateCall 2, CallEvent.fitCall, CallEvent.sampleCall 2]
    rfl rfl (by omega) rfl (by decide) (by decide)

end SynGen
